import Mathlib

/-!
Verification of the EON-SPOOKER parsing and reconstruction engine
(package `eon_spooker`): a shallow embedding of the format detector,
the three format parsers, the data processor (cumulative reconstruction
walk) and the unified orchestrator, with theorems about the spec's
claims.  Numeric values are modelled as rationals, timestamps as
structured records; Python's stable `list.sort` is modelled by
insertion sort on a numeric key, and Python `round(x, 3)` by
round-half-to-even at three decimals.
-/

/-- Timestamp as produced by `datetime.strptime` / `pd.to_datetime`:
calendar fields, assumed in calendar range (month 1-12, day 1-31,
hour 0-23, minute 0-59) as guaranteed by the datetime parsers. -/
structure Ts where
  year : Nat
  month : Nat
  day : Nat
  hour : Nat
  minute : Nat
deriving DecidableEq, Repr

/-- The date part, as compared by Python `timestamp.date() == day_start.date()`. -/
def Ts.dateTriple (t : Ts) : Nat × Nat × Nat := (t.year, t.month, t.day)

/-- Boolean date equality used in list filters. -/
def Ts.sameDate (a b : Ts) : Bool := decide (a.dateTriple = b.dateTriple)

/-- Numeric sort key; strictly monotone with respect to chronological
order for in-range calendar fields, so sorting by this key models
Python's sort on `datetime` values. -/
def Ts.key (t : Ts) : Nat :=
  (((t.year * 13 + t.month) * 32 + t.day) * 24 + t.hour) * 60 + t.minute

/-- The comparison relation `key a ≤ key b` used for timestamp sorts. -/
def keyLE {α : Type} (f : α → Nat) (a b : α) : Prop := f a ≤ f b

instance {α : Type} (f : α → Nat) : DecidableRel (keyLE f) :=
  fun a b => Nat.decLe (f a) (f b)

instance {α : Type} (f : α → Nat) : IsTotal α (keyLE f) :=
  ⟨fun a b => Nat.le_total (f a) (f b)⟩

instance {α : Type} (f : α → Nat) : IsTrans α (keyLE f) :=
  ⟨fun _ _ _ => Nat.le_trans⟩

/-- Stable sort by a numeric key: models Python's stable `list.sort(key=...)`. -/
def sortByKey {α : Type} (f : α → Nat) (l : List α) : List α :=
  List.insertionSort (keyLE f) l

/-- Round half to even at integer precision (Python's `round` tie rule). -/
def rhe (q : ℚ) : ℤ :=
  let f : ℤ := ⌊q⌋
  let r : ℚ := q - (f : ℚ)
  if r < 1/2 then f
  else if (1/2 : ℚ) < r then f + 1
  else if f % 2 = 0 then f else f + 1

/-- Python `round(x, 3)` on the idealized (rational) value. -/
def round3 (q : ℚ) : ℚ := (rhe (q * 1000) : ℚ) / 1000

/-! ## DataProcessor (`data_processor.py`)

`_process_energy_data` walks daily baselines and hourly deltas and
emits Home Assistant statistics points. -/

/-- One parsed data point (`{'timestamp': ..., 'value': ...}`). -/
structure Entry where
  ts : Ts
  value : ℚ
deriving DecidableEq, Repr

/-- One emitted statistics point.  The Python code formats `start` as a
string with a timezone-offset suffix; the timestamp content is kept
structured here (the suffix is a per-processor constant). -/
structure StatPoint where
  start : Ts
  state : ℚ
  sum : ℚ
deriving DecidableEq, Repr

/-- The inner per-day loop of `_process_energy_data` (lines 123-138):
starting from the running total `v`, walk the day's hourly entries in
order; at each entry whose minute is 0 emit a point with
`state = sum = round(total, 3)` before adding the entry's value; always
add the value.  Returns the emitted points and the final running total. -/
def runDay : ℚ → List Entry → List StatPoint × ℚ
  | v, [] => ([], v)
  | v, e :: rest =>
    let tail := runDay (v + e.value) rest
    ((if e.ts.minute = 0 then [⟨e.ts, round3 v, round3 v⟩] else []) ++ tail.1, tail.2)

/-- The body of the `for day_entry in daily_data` loop (lines 108-138):
select the hourly entries of the day's date; if there are none, skip
the day (a warning is logged); otherwise initialize the running total
to the baseline value and walk the day's entries with `runDay`,
appending the emitted points. -/
def dayStep (hourly : List Entry) (acc : List StatPoint) (dayEntry : Entry) : List StatPoint :=
  let dayHourly := hourly.filter (fun e => e.ts.sameDate dayEntry.ts)
  if dayHourly.isEmpty then acc
  else acc ++ (runDay dayEntry.value dayHourly).1

/-- `DataProcessor._process_energy_data`: return `[]` when there is no
daily data; otherwise sort both series by timestamp and fold `dayStep`
over the daily baselines. -/
def processEnergyData (dailyData hourlyData : List Entry) : List StatPoint :=
  match dailyData with
  | [] => []
  | d :: ds =>
    let daily := sortByKey (fun e => e.ts.key) (d :: ds)
    let hourly := sortByKey (fun e => e.ts.key) hourlyData
    daily.foldl (dayStep hourly) []

/-- Each entry paired with the running total accumulated strictly
before it (used to state what `runDay` emits). -/
def prefixTotals : ℚ → List Entry → List (ℚ × Entry)
  | _, [] => []
  | v, e :: rest => (v, e) :: prefixTotals (v + e.value) rest

/-- The final running total of a day's walk is the baseline plus the
raw sum of the day's delta values: no clamping or correction happens
inside the walk. -/
lemma runDay_snd (v : ℚ) (es : List Entry) :
    (runDay v es).2 = v + (es.map Entry.value).sum := by
  induction es generalizing v with
  | nil => simp [runDay]
  | cons e rest ih => simp [runDay, ih, add_assoc]

/-- What the day's walk emits: one point per minute-0 entry, carrying
(rounded) the running total accumulated strictly before that entry,
i.e. the point is emitted before the entry's own value is added. -/
lemma runDay_fst (v : ℚ) (es : List Entry) :
    (runDay v es).1 =
      (prefixTotals v es).filterMap
        (fun p => if p.2.ts.minute = 0
          then some ⟨p.2.ts, round3 p.1, round3 p.1⟩ else none) := by
  induction es generalizing v with
  | nil => simp [runDay, prefixTotals]
  | cons e rest ih =>
    by_cases h : e.ts.minute = 0 <;>
      simp [runDay, prefixTotals, h, ih]

/-- Every point emitted by a day's walk takes its timestamp from one of
the day's entries. -/
lemma runDay_start_mem (v : ℚ) (es : List Entry) (p : StatPoint)
    (hp : p ∈ (runDay v es).1) : ∃ e, e ∈ es ∧ p.start = e.ts := by
  induction es generalizing v with
  | nil => simp [runDay] at hp
  | cons e rest ih =>
    rw [runDay] at hp
    rcases List.mem_append.mp hp with h1 | h2
    · refine ⟨e, List.mem_cons_self e rest, ?_⟩
      by_cases h : e.ts.minute = 0 <;> simp [h] at h1
      simp [h1]
    · obtain ⟨e', he', hp'⟩ := ih (v + e.value) h2
      exact ⟨e', List.mem_cons_of_mem e he', hp'⟩

/-- Every point produced by the reconstruction walk takes its timestamp
from one of the hourly entries. -/
lemma processEnergyData_start_mem (daily hourly : List Entry) (p : StatPoint)
    (hp : p ∈ processEnergyData daily hourly) : ∃ e, e ∈ hourly ∧ p.start = e.ts := by
  match daily with
  | [] => simp [processEnergyData] at hp
  | d :: ds =>
    simp only [processEnergyData] at hp
    set h' := sortByKey (fun e => e.ts.key) hourly with hh
    have main : ∀ (l : List Entry) (acc : List StatPoint),
        (∀ q ∈ acc, ∃ e, e ∈ h' ∧ q.start = e.ts) →
        ∀ q ∈ l.foldl (dayStep h') acc, ∃ e, e ∈ h' ∧ q.start = e.ts := by
      intro l
      induction l with
      | nil => intro acc hacc q hq; exact hacc q hq
      | cons x xs ih =>
        intro acc hacc q hq
        refine ih (dayStep h' acc x) ?_ q hq
        intro r hr
        rw [dayStep] at hr
        by_cases hemp : (h'.filter (fun e => e.ts.sameDate x.ts)).isEmpty
        · rw [if_pos hemp] at hr; exact hacc r hr
        · rw [if_neg hemp] at hr
          rcases List.mem_append.mp hr with h1 | h2
          · exact hacc r h1
          · obtain ⟨e, he, hr'⟩ := runDay_start_mem _ _ _ h2
            exact ⟨e, List.mem_filter.mp he |>.1, hr'⟩
    obtain ⟨e, he, hpe⟩ := main _ [] (by simp) p hp
    refine ⟨e, ?_, hpe⟩
    have : e ∈ h' ↔ e ∈ hourly := by
      rw [hh]; exact List.Perm.mem_iff (List.perm_insertionSort _ hourly)
    exact this.mp he

/-- Rounding a nonnegative value half-to-even stays nonnegative. -/
lemma rhe_nonneg {q : ℚ} (hq : 0 ≤ q) : 0 ≤ rhe q := by
  unfold rhe
  have hf : (0:ℤ) ≤ ⌊q⌋ := Int.floor_nonneg.mpr hq
  dsimp only
  split_ifs <;> omega

/-- `round(x, 3)` of a nonnegative value is nonnegative. -/
lemma round3_nonneg {q : ℚ} (hq : 0 ≤ q) : 0 ≤ round3 q := by
  unfold round3
  have h1 : (0:ℚ) ≤ (rhe (q * 1000) : ℚ) := by
    exact_mod_cast rhe_nonneg (by positivity)
  positivity

/-- The output of the modelled Python sort is sorted by its key. -/
lemma sorted_sortByKey {α : Type} (f : α → Nat) (l : List α) :
    List.Sorted (keyLE f) (sortByKey f l) :=
  List.sorted_insertionSort (keyLE f) l

/-! ## CumulativeParser (`cumulative_parser.py`)

The daily cumulative-readings (180/280) format parser. -/

/-- One cleaned data row as seen by `_convert_to_cumulative_series`:
the parsed date of the first column (`none` when `pd.to_datetime`
raises, making the row skip), and `_safe_float` of the first two DP
data columns (`none` on missing/invalid). -/
structure CumRow where
  date : Option Ts
  importVal : Option ℚ
  exportVal : Option ℚ

/-- One record of the cumulative series: an absolute daily meter
reading for each direction.  The Python record also carries
`cumulative_net_kwh = import - export` and `import_kwh`/`export_kwh`
aliases equal to the two absolute readings; those are derived fields. -/
structure CumRecord where
  date : Ts
  cumulativeImportKwh : ℚ
  cumulativeExportKwh : ℚ
deriving DecidableEq, Repr

/-- `CumulativeParser._convert_to_cumulative_series`: keep rows whose
date parses and whose import and export values are both present, then
sort by date. -/
def convertToCumulativeSeries (rows : List CumRow) : List CumRecord :=
  sortByKey (fun r => r.date.key)
    (rows.filterMap fun r =>
      match r.date, r.importVal, r.exportVal with
      | some d, some i, some e => some ⟨d, i, e⟩
      | _, _, _ => none)

/-- One daily-consumption record produced by
`_calculate_daily_consumption`. -/
structure DailyConsumption where
  date : Ts
  importKwh : ℚ
  exportKwh : ℚ
  netKwh : ℚ
deriving DecidableEq, Repr

/-- Consecutive pairs of a list (the `for i in range(1, len(...))`
indexing pattern). -/
def consecPairs {α : Type} : List α → List (α × α)
  | a :: b :: rest => (a, b) :: consecPairs (b :: rest)
  | _ => []

/-- `CumulativeParser._calculate_daily_consumption`: with fewer than
two cumulative readings return `[]` (warning); otherwise each
consecutive pair yields a record dated at the later reading, whose
import/export consumptions are the differences clamped below at zero
(`max(0, ...)`) and rounded, and whose net is the unclamped rounded
difference of differences. -/
def calculateDailyConsumption (cumulativeData : List CumRecord) : List DailyConsumption :=
  if cumulativeData.length < 2 then []
  else
    (consecPairs cumulativeData).map fun pc =>
      let importConsumption := pc.2.cumulativeImportKwh - pc.1.cumulativeImportKwh
      let exportConsumption := pc.2.cumulativeExportKwh - pc.1.cumulativeExportKwh
      ⟨pc.2.date, round3 (max 0 importConsumption), round3 (max 0 exportConsumption),
        round3 (importConsumption - exportConsumption)⟩

/-- One record of the evenly-distributed hourly view built by
`_distribute_to_hourly`. -/
structure HourlyDist where
  datetime : Ts
  importKwh : ℚ
  exportKwh : ℚ
  netKwh : ℚ
  cumulativeImportKwh : ℚ
  cumulativeExportKwh : ℚ
deriving DecidableEq, Repr

/-- `base_date.replace(hour=h, minute=0, second=0, microsecond=0)`. -/
def Ts.withHour (t : Ts) (h : Nat) : Ts := ⟨t.year, t.month, t.day, h, 0⟩

/-- `CumulativeParser._distribute_to_hourly`: spread each day's
consumption evenly over 24 hours, threading cumulative counters that
start from the first absolute reading (or zero when there is none). -/
def distributeToHourly (cumulativeData : List CumRecord)
    (daily : List DailyConsumption) : List HourlyDist :=
  match daily with
  | [] => []
  | _ =>
    let start : ℚ × ℚ :=
      match cumulativeData with
      | first :: _ => (first.cumulativeImportKwh, first.cumulativeExportKwh)
      | [] => (0, 0)
    (daily.foldl
      (fun (st : (ℚ × ℚ) × List HourlyDist) day =>
        let hi := day.importKwh / 24
        let he := day.exportKwh / 24
        let hn := day.netKwh / 24
        (List.range 24).foldl
          (fun (st2 : (ℚ × ℚ) × List HourlyDist) hour =>
            let ci := st2.1.1 + hi
            let ce := st2.1.2 + he
            ((ci, ce), st2.2 ++
              [⟨day.date.withHour hour, round3 hi, round3 he, round3 hn,
                round3 ci, round3 ce⟩]))
          st)
      (start, [])).2

/-- The fields of `CumulativeParser.parse`'s result dictionary that the
claims are about. -/
structure CumulativeParseResult where
  cumulativeData : List CumRecord
  dailyData : List DailyConsumption
  hourlyData : List HourlyDist
  totalRecords : Nat

/-- `CumulativeParser.parse` (lines 42-73), after reading and cleaning:
build the cumulative series, derive `daily_data` as consecutive-reading
consumption and `hourly_data` as its even 24-hour distribution. -/
def parseCumulative (rows : List CumRow) : CumulativeParseResult :=
  let cumulativeData := convertToCumulativeSeries rows
  let dailyConsumption := calculateDailyConsumption cumulativeData
  let hourlyData := distributeToHourly cumulativeData dailyConsumption
  ⟨cumulativeData, dailyConsumption, hourlyData, cumulativeData.length⟩

/-- Daily-consumption records are clamped below at zero in both
directions. -/
lemma calculateDailyConsumption_nonneg (l : List CumRecord) (d : DailyConsumption)
    (hd : d ∈ calculateDailyConsumption l) : 0 ≤ d.importKwh ∧ 0 ≤ d.exportKwh := by
  unfold calculateDailyConsumption at hd
  by_cases hl : l.length < 2
  · rw [if_pos hl] at hd; simp at hd
  · rw [if_neg hl] at hd
    obtain ⟨pc, _, rfl⟩ := List.mem_map.mp hd
    exact ⟨round3_nonneg (le_max_left 0 _), round3_nonneg (le_max_left 0 _)⟩

/-- Every record of the cumulative series carries the absolute import
and export readings of some input row, unchanged. -/
lemma convertToCumulativeSeries_mem (rows : List CumRow) (r : CumRecord)
    (hr : r ∈ convertToCumulativeSeries rows) :
    ∃ row, row ∈ rows ∧ row.date = some r.date ∧
      row.importVal = some r.cumulativeImportKwh ∧
      row.exportVal = some r.cumulativeExportKwh := by
  unfold convertToCumulativeSeries sortByKey at hr
  have hr' := (List.perm_insertionSort _ _).mem_iff.mp hr
  obtain ⟨row, hrow, hmap⟩ := List.mem_filterMap.mp hr'
  rcases row with ⟨od, oi, oe⟩
  rcases od with _ | d <;> rcases oi with _ | i <;> rcases oe with _ | e <;>
    simp only at hmap
  all_goals try exact Option.noConfusion hmap
  obtain rfl := Option.some_injective _ hmap
  exact ⟨⟨some d, some i, some e⟩, hrow, rfl, rfl, rfl⟩

/-- C1: in the reconstruction walk, each day's running total starts at
that day's baseline; a minute-0 delta makes the walk emit a point whose
state and sum both equal the (rounded) running total accumulated
strictly before that delta is added, and every delta's raw value is
afterwards added to the total.  In the concrete instance — baseline
1000.0 with four positive 15-minute deltas summing to 4.0 within hour
0 — the single emitted point (at hour 0) has state = sum = 1000.0 and
the final running total is 1004.0. -/
theorem c1_reconstruction_walk :
    (∀ (v : ℚ) (es : List Entry),
      (runDay v es).1 =
        (prefixTotals v es).filterMap
          (fun p => if p.2.ts.minute = 0
            then some ⟨p.2.ts, round3 p.1, round3 p.1⟩ else none)) ∧
    (∀ (v : ℚ) (es : List Entry),
      (runDay v es).2 = v + (es.map Entry.value).sum) ∧
    processEnergyData [⟨⟨2024, 1, 1, 0, 0⟩, 1000⟩]
        [⟨⟨2024, 1, 1, 0, 0⟩, 1⟩, ⟨⟨2024, 1, 1, 0, 15⟩, 1⟩,
         ⟨⟨2024, 1, 1, 0, 30⟩, 1⟩, ⟨⟨2024, 1, 1, 0, 45⟩, 1⟩] =
      [⟨⟨2024, 1, 1, 0, 0⟩, 1000, 1000⟩] ∧
    (runDay 1000
        [⟨⟨2024, 1, 1, 0, 0⟩, 1⟩, ⟨⟨2024, 1, 1, 0, 15⟩, 1⟩,
         ⟨⟨2024, 1, 1, 0, 30⟩, 1⟩, ⟨⟨2024, 1, 1, 0, 45⟩, 1⟩]).2 = 1004 := by
  refine ⟨runDay_fst, runDay_snd, ?_, ?_⟩
  · norm_num [processEnergyData, sortByKey, List.insertionSort, List.orderedInsert,
      runDay, dayStep, round3, rhe, Ts.sameDate, Ts.dateTriple, Ts.key, keyLE]
  · norm_num [runDay]

/-- C3: negative per-interval deltas are clamped to zero in the
daily-total view of the cumulative parser (`max(0, ...)` in
`_calculate_daily_consumption`), but the hour-by-hour running-total
walk adds every delta's raw value without clamping, so a negative delta
lowers the running total and the next emitted point reflects the
reduced total (here 96 after a -5 delta, down from the 100 emitted an
hour earlier). -/
theorem c3_negative_delta :
    (∀ (l : List CumRecord) (d : DailyConsumption),
      d ∈ calculateDailyConsumption l → 0 ≤ d.importKwh ∧ 0 ≤ d.exportKwh) ∧
    (∀ (v : ℚ) (es : List Entry),
      (runDay v es).2 = v + (es.map Entry.value).sum) ∧
    processEnergyData [⟨⟨2024, 1, 1, 0, 0⟩, 100⟩]
        [⟨⟨2024, 1, 1, 0, 0⟩, 1⟩, ⟨⟨2024, 1, 1, 0, 15⟩, -5⟩, ⟨⟨2024, 1, 1, 1, 0⟩, 2⟩] =
      [⟨⟨2024, 1, 1, 0, 0⟩, 100, 100⟩, ⟨⟨2024, 1, 1, 1, 0⟩, 96, 96⟩] ∧
    (96 : ℚ) < 100 := by
  refine ⟨calculateDailyConsumption_nonneg, runDay_snd, ?_, by norm_num⟩
  norm_num [processEnergyData, sortByKey, List.insertionSort, List.orderedInsert,
    runDay, dayStep, round3, rhe, Ts.sameDate, Ts.dateTriple, Ts.key, keyLE]

/-- Witness for C3: the clamping half of the claim applied at a
concrete input with a negative consumption difference (104 → 100, a
meter rollback), whose daily record is clamped to 0. -/
theorem c3_negative_delta_witness :
    (⟨⟨2024, 1, 2, 0, 0⟩, 0, 0, -4⟩ : DailyConsumption) ∈
      calculateDailyConsumption
        [⟨⟨2024, 1, 1, 0, 0⟩, 104, 50⟩, ⟨⟨2024, 1, 2, 0, 0⟩, 100, 50⟩] ∧
    (0 : ℚ) ≤ (⟨⟨2024, 1, 2, 0, 0⟩, 0, 0, -4⟩ : DailyConsumption).importKwh ∧
    (0 : ℚ) ≤ (⟨⟨2024, 1, 2, 0, 0⟩, 0, 0, -4⟩ : DailyConsumption).exportKwh := by
  have hmem : (⟨⟨2024, 1, 2, 0, 0⟩, 0, 0, -4⟩ : DailyConsumption) ∈
      calculateDailyConsumption
        [⟨⟨2024, 1, 1, 0, 0⟩, 104, 50⟩, ⟨⟨2024, 1, 2, 0, 0⟩, 100, 50⟩] := by
    have h1 : round3 (max 0 ((100:ℚ) - 104)) = 0 := by norm_num [round3, rhe]
    have h2 : round3 (max 0 ((50:ℚ) - 50)) = 0 := by norm_num [round3, rhe]
    have h3 : round3 ((100:ℚ) - 104 - (50 - 50)) = -4 := by norm_num [round3, rhe]
    have h4 : round3 (0:ℚ) = 0 := by norm_num [round3, rhe]
    have h5 : round3 ((100:ℚ) - 104) = -4 := by norm_num [round3, rhe]
    simp [calculateDailyConsumption, consecPairs, h1, h2, h3, h4, h5]
  have h := c3_negative_delta.1
      [⟨⟨2024, 1, 1, 0, 0⟩, 104, 50⟩, ⟨⟨2024, 1, 2, 0, 0⟩, 100, 50⟩]
      ⟨⟨2024, 1, 2, 0, 0⟩, 0, 0, -4⟩ hmem
  exact ⟨hmem, h.1, h.2⟩

/-- C7: a day with a daily baseline but no hourly entries of the same
date contributes no statistics points (points only ever carry
timestamps of hourly entries), and the processing function still
returns a result (here the empty list) rather than failing. -/
theorem c7_missing_hourly_day :
    (∀ (daily hourly : List Entry) (dateD : Nat × Nat × Nat),
      (∀ e ∈ hourly, e.ts.dateTriple ≠ dateD) →
      ∀ p ∈ processEnergyData daily hourly, p.start.dateTriple ≠ dateD) ∧
    processEnergyData [⟨⟨2024, 1, 2, 0, 0⟩, 500⟩] [⟨⟨2024, 1, 1, 0, 0⟩, 1⟩] = [] := by
  constructor
  · intro daily hourly dateD hnone p hp
    obtain ⟨e, he, hpe⟩ := processEnergyData_start_mem daily hourly p hp
    rw [hpe]
    exact hnone e he
  · norm_num [processEnergyData, sortByKey, List.insertionSort, List.orderedInsert,
      runDay, dayStep, Ts.sameDate, Ts.dateTriple, Ts.key, keyLE]

/-- Witness for C7: a two-day input where day 2 has a baseline but no
hourly data; the day-1 point that does get emitted is not dated day 2. -/
theorem c7_missing_hourly_day_witness :
    (([⟨⟨2024, 1, 1, 0, 0⟩, 3⟩] : List Entry).all
        (fun e => decide (e.ts.dateTriple ≠ (2024, 1, 2)))) = true ∧
    (⟨⟨2024, 1, 1, 0, 0⟩, 10, 10⟩ : StatPoint).start.dateTriple ≠ (2024, 1, 2) := by
  refine ⟨by decide, ?_⟩
  refine c7_missing_hourly_day.1
    [⟨⟨2024, 1, 1, 0, 0⟩, 10⟩, ⟨⟨2024, 1, 2, 0, 0⟩, 500⟩]
    [⟨⟨2024, 1, 1, 0, 0⟩, 3⟩] (2024, 1, 2) (by decide)
    ⟨⟨2024, 1, 1, 0, 0⟩, 10, 10⟩ ?_
  norm_num [processEnergyData, sortByKey, List.insertionSort, List.orderedInsert,
    runDay, dayStep, round3, rhe, Ts.sameDate, Ts.dateTriple, Ts.key, keyLE]

/-- C9 counterexample: the cumulative parser's own result already
contains computed consumption deltas.  For absolute readings
(import 100, export 50) on day 1 and (104, 51) on day 2, the parser's
`daily_data` holds the consecutive-subtraction deltas 4 = 104 - 100 and
1 = 51 - 50 — delta computation is not left to the reconstruction
stage, refuting the claim that the parser does not itself compute
consumption deltas. -/
theorem c9_counterexample :
    (parseCumulative
        [⟨some ⟨2024, 1, 1, 0, 0⟩, some 100, some 50⟩,
         ⟨some ⟨2024, 1, 2, 0, 0⟩, some 104, some 51⟩]).dailyData =
      [⟨⟨2024, 1, 2, 0, 0⟩, 4, 1, 3⟩] ∧
    (4 : ℚ) = 104 - 100 ∧ (1 : ℚ) = 51 - 50 := by
  refine ⟨?_, by norm_num, by norm_num⟩
  have h1 : round3 (max 0 ((104:ℚ) - 100)) = 4 := by norm_num [round3, rhe]
  have h2 : round3 (max 0 ((51:ℚ) - 50)) = 1 := by norm_num [round3, rhe]
  have h3 : round3 ((104:ℚ) - 100 - (51 - 50)) = 3 := by norm_num [round3, rhe]
  have h4 : round3 ((4:ℚ)) = 4 := by norm_num [round3, rhe]
  have h5 : round3 ((1:ℚ)) = 1 := by norm_num [round3, rhe]
  have h6 : round3 ((3:ℚ)) = 3 := by norm_num [round3, rhe]
  simp [parseCumulative, calculateDailyConsumption, consecPairs,
    convertToCumulativeSeries, sortByKey, List.insertionSort, List.orderedInsert,
    keyLE, Ts.key, h1, h2, h3, h4, h5, h6]

/-- C9 amended: the cumulative parser produces, as `cumulative_data`, a
date-sorted series of absolute daily meter readings per direction,
passed through unchanged from the input rows; but contrary to the
claim it also itself computes consumption deltas: its `daily_data` is
exactly `_calculate_daily_consumption` of those readings (consecutive
subtraction), as the concrete 100→104 instance shows. -/
theorem c9_cumulative_deltas :
    (∀ (rows : List CumRow) (r : CumRecord),
      r ∈ (parseCumulative rows).cumulativeData →
      rows.any (fun row =>
        decide (row.date = some r.date) &&
        decide (row.importVal = some r.cumulativeImportKwh) &&
        decide (row.exportVal = some r.cumulativeExportKwh)) = true) ∧
    (∀ rows : List CumRow,
      List.Sorted (keyLE fun r => r.date.key) (parseCumulative rows).cumulativeData) ∧
    (∀ rows : List CumRow,
      (parseCumulative rows).dailyData =
        calculateDailyConsumption (convertToCumulativeSeries rows)) ∧
    (parseCumulative
        [⟨some ⟨2024, 1, 1, 0, 0⟩, some 100, some 50⟩,
         ⟨some ⟨2024, 1, 2, 0, 0⟩, some 104, some 51⟩]).dailyData =
      [⟨⟨2024, 1, 2, 0, 0⟩, round3 (max 0 (104 - 100)), round3 (max 0 (51 - 50)),
        round3 ((104 - 100) - (51 - 50))⟩] := by
  refine ⟨?_, ?_, fun _ => rfl, ?_⟩
  · intro rows r hr
    obtain ⟨row, hrow, hd, hi, he⟩ := convertToCumulativeSeries_mem rows r hr
    exact List.any_eq_true.mpr ⟨row, hrow, by simp [hd, hi, he]⟩
  · intro rows
    exact sorted_sortByKey _ _
  · simp [parseCumulative, calculateDailyConsumption, consecPairs,
      convertToCumulativeSeries, sortByKey, List.insertionSort, List.orderedInsert,
      keyLE, Ts.key]

/-- Witness for C9 amended: the pass-through half applied at a concrete
record of the parsed cumulative series. -/
theorem c9_cumulative_deltas_witness :
    (⟨⟨2024, 1, 1, 0, 0⟩, 100, 50⟩ : CumRecord) ∈
      (parseCumulative [⟨some ⟨2024, 1, 1, 0, 0⟩, some 100, some 50⟩]).cumulativeData ∧
    ([(⟨some ⟨2024, 1, 1, 0, 0⟩, some 100, some 50⟩ : CumRow)].any (fun row =>
      decide (row.date = some (⟨2024, 1, 1, 0, 0⟩ : Ts)) &&
      decide (row.importVal = some (100 : ℚ)) &&
      decide (row.exportVal = some (50 : ℚ)))) = true := by
  have hmem : (⟨⟨2024, 1, 1, 0, 0⟩, 100, 50⟩ : CumRecord) ∈
      (parseCumulative [⟨some ⟨2024, 1, 1, 0, 0⟩, some 100, some 50⟩]).cumulativeData := by
    simp [parseCumulative, convertToCumulativeSeries, sortByKey,
      List.insertionSort, List.orderedInsert]
  exact ⟨hmem,
    c9_cumulative_deltas.1 [⟨some ⟨2024, 1, 1, 0, 0⟩, some 100, some 50⟩]
      ⟨⟨2024, 1, 1, 0, 0⟩, 100, 50⟩ hmem⟩

/-! ## Legacy CSVParser (`csv_parser.py`) and APAMParser (`ap_am_parser.py`) -/

/-- The single-quote character wrapping the legacy variable-name tokens
of `config.VARIABLE_FILTERS`. -/
def quoteChar : Char := Char.ofNat 39

/-- `VARIABLE_FILTERS['IMPORT_HOURLY']`, the literal token `+A` wrapped
in single quotes. -/
def importHourlyToken : String := String.mk [quoteChar, '+', 'A', quoteChar]

/-- `VARIABLE_FILTERS['EXPORT_HOURLY']`. -/
def exportHourlyToken : String := String.mk [quoteChar, '-', 'A', quoteChar]

/-- `VARIABLE_FILTERS['IMPORT_DAILY']`, the quoted `DP_1-1:1.8.0*0`. -/
def importDailyToken : String := String.mk ([quoteChar] ++ "DP_1-1:1.8.0*0".data ++ [quoteChar])

/-- `VARIABLE_FILTERS['EXPORT_DAILY']`, the quoted `DP_1-1:2.8.0*0`. -/
def exportDailyToken : String := String.mk ([quoteChar] ++ "DP_1-1:2.8.0*0".data ++ [quoteChar])

/-- One CSV row of the legacy W1000 format after field parsing:
`time`/`value` are `none` when `_parse_datetime`/`_parse_value` raise
`DataValidationError` (such a row is skipped with a warning). -/
structure LegacyRow where
  podName : String
  variableName : String
  time : Option Ts
  value : Option ℚ

/-- One data point of the legacy parser's output buckets. -/
structure LegacyPoint where
  timestamp : Ts
  value : ℚ
  podName : String
deriving DecidableEq, Repr

/-- The four buckets of `CSVParser.parse`'s result. -/
structure LegacyData where
  importHourly : List LegacyPoint
  exportHourly : List LegacyPoint
  importDaily : List LegacyPoint
  exportDaily : List LegacyPoint
deriving DecidableEq, Repr

/-- `CSVParser._process_row`: skip the row if its timestamp or value
does not parse; otherwise append the data point to the bucket whose
`VARIABLE_FILTERS` token exactly equals the row's variable name, or
drop the row (debug log) when no token matches. -/
def processRow (data : LegacyData) (row : LegacyRow) : LegacyData :=
  match row.time, row.value with
  | some t, some v =>
    let p : LegacyPoint := ⟨t, v, row.podName⟩
    if row.variableName = importHourlyToken then
      { data with importHourly := data.importHourly ++ [p] }
    else if row.variableName = exportHourlyToken then
      { data with exportHourly := data.exportHourly ++ [p] }
    else if row.variableName = importDailyToken then
      { data with importDaily := data.importDaily ++ [p] }
    else if row.variableName = exportDailyToken then
      { data with exportDaily := data.exportDaily ++ [p] }
    else data
  | _, _ => data

/-- `CSVParser.parse` row loop plus `_validate_parsed_data`: categorize
every row, then sort each bucket by timestamp.  `_validate_parsed_data`
only sorts and logs — it performs no deduplication. -/
def legacyParse (rows : List LegacyRow) : LegacyData :=
  let data := rows.foldl processRow ⟨[], [], [], []⟩
  ⟨sortByKey (fun p => p.timestamp.key) data.importHourly,
   sortByKey (fun p => p.timestamp.key) data.exportHourly,
   sortByKey (fun p => p.timestamp.key) data.importDaily,
   sortByKey (fun p => p.timestamp.key) data.exportDaily⟩

/-- One cleaned AP_AM row as seen by `_convert_to_time_series`: parsed
datetime (`none` when parsing raises, skipping the row) and
`_safe_float` of the `+A` and `-A` columns. -/
structure ApAmRow where
  dt : Option Ts
  importVal : Option ℚ
  exportVal : Option ℚ

/-- One record of the AP_AM 15-minute time series. -/
structure IntervalRecord where
  datetime : Ts
  importKwh : ℚ
  exportKwh : ℚ
  netKwh : ℚ
deriving DecidableEq, Repr

/-- `APAMParser._convert_to_time_series`: keep rows with a parsed
datetime and both values present, then sort by datetime. -/
def convertToTimeSeries (rows : List ApAmRow) : List IntervalRecord :=
  sortByKey (fun r => r.datetime.key)
    (rows.filterMap fun r =>
      match r.dt, r.importVal, r.exportVal with
      | some dt, some i, some e => some ⟨dt, i, e, i - e⟩
      | _, _, _ => none)

/-- C6 counterexample: two legacy rows with the same timestamp in the
same categorized bucket are both kept — `_validate_parsed_data` sorts
and logs but never deduplicates, so the output is not the claimed
keep-first singleton. -/
theorem c6_counterexample :
    (legacyParse
        [⟨"POD1", importHourlyToken, some ⟨2024, 1, 1, 0, 0⟩, some 5⟩,
         ⟨"POD1", importHourlyToken, some ⟨2024, 1, 1, 0, 0⟩, some 5⟩]).importHourly =
      [⟨⟨2024, 1, 1, 0, 0⟩, 5, "POD1"⟩, ⟨⟨2024, 1, 1, 0, 0⟩, 5, "POD1"⟩] ∧
    (legacyParse
        [⟨"POD1", importHourlyToken, some ⟨2024, 1, 1, 0, 0⟩, some 5⟩,
         ⟨"POD1", importHourlyToken, some ⟨2024, 1, 1, 0, 0⟩, some 5⟩]).importHourly ≠
      [⟨⟨2024, 1, 1, 0, 0⟩, 5, "POD1"⟩] := by
  have heval : (legacyParse
      [⟨"POD1", importHourlyToken, some ⟨2024, 1, 1, 0, 0⟩, some 5⟩,
       ⟨"POD1", importHourlyToken, some ⟨2024, 1, 1, 0, 0⟩, some 5⟩]).importHourly =
      [⟨⟨2024, 1, 1, 0, 0⟩, 5, "POD1"⟩, ⟨⟨2024, 1, 1, 0, 0⟩, 5, "POD1"⟩] := by
    simp [legacyParse, processRow, sortByKey, List.insertionSort, List.orderedInsert,
      keyLE, Ts.key]
  refine ⟨heval, ?_⟩
  intro hcontra
  rw [heval] at hcontra
  have := congrArg List.length hcontra
  simp at this

/-- C6 amended: all three parsers sort their output series by
timestamp before returning, but duplicate timestamps within the same
categorized bucket are retained (both occurrences kept, no warning-and-
keep-first deduplication), so the output can contain duplicate
timestamps within one direction. -/
theorem c6_sorted_but_duplicates_kept :
    (∀ rows : List LegacyRow,
      List.Sorted (keyLE fun p => p.timestamp.key) (legacyParse rows).importHourly ∧
      List.Sorted (keyLE fun p => p.timestamp.key) (legacyParse rows).exportHourly ∧
      List.Sorted (keyLE fun p => p.timestamp.key) (legacyParse rows).importDaily ∧
      List.Sorted (keyLE fun p => p.timestamp.key) (legacyParse rows).exportDaily) ∧
    (∀ rows : List ApAmRow,
      List.Sorted (keyLE fun r => r.datetime.key) (convertToTimeSeries rows)) ∧
    (∀ rows : List CumRow,
      List.Sorted (keyLE fun r => r.date.key) (convertToCumulativeSeries rows)) ∧
    (legacyParse
        [⟨"POD1", importHourlyToken, some ⟨2024, 1, 1, 0, 0⟩, some 5⟩,
         ⟨"POD1", importHourlyToken, some ⟨2024, 1, 1, 0, 0⟩, some 5⟩]).importHourly =
      [⟨⟨2024, 1, 1, 0, 0⟩, 5, "POD1"⟩, ⟨⟨2024, 1, 1, 0, 0⟩, 5, "POD1"⟩] := by
  refine ⟨fun rows => ⟨sorted_sortByKey _ _, sorted_sortByKey _ _,
      sorted_sortByKey _ _, sorted_sortByKey _ _⟩,
    fun rows => sorted_sortByKey _ _, fun rows => sorted_sortByKey _ _, ?_⟩
  simp [legacyParse, processRow, sortByKey, List.insertionSort, List.orderedInsert,
    keyLE, Ts.key]

/-! ## FormatDetector (`format_detector.py`) -/

/-- Python `a in b` on strings when `a` is a prefix-check step:
character-list prefix test. -/
def isPrefixOfChars : List Char → List Char → Bool
  | [], _ => true
  | _ :: _, [] => false
  | a :: as, b :: bs => a = b && isPrefixOfChars as bs

/-- Python substring containment `pat in s` on character lists. -/
def containsSubChars (pat : List Char) : List Char → Bool
  | [] => isPrefixOfChars pat []
  | c :: rest => isPrefixOfChars pat (c :: rest) || containsSubChars pat rest

/-- Python substring containment `pat in s` on strings (case-sensitive,
as Python's `in` operator is). -/
def containsSub (pat s : String) : Bool := containsSubChars pat.data s.data

/-- One format signature of `FormatDetector.__init__`. -/
structure FormatSignature where
  requiredColumns : List String
  optionalColumns : List String
  rowPatterns : List String

/-- The `DataFormat.LEGACY` signature. -/
def legacySignature : FormatSignature :=
  ⟨["POD Name", "Variable name", "Time", "Value [kWh]"], [], []⟩

/-- The `DataFormat.AP_AM` signature. -/
def apAmSignature : FormatSignature :=
  ⟨["Dátum/Idő", "+A", "-A"], [], ["MAXIMUM ÉRTÉK", "ÖSSZEG"]⟩

/-- The `DataFormat.CUMULATIVE_180_280` signature (its DP column names
are dynamic, handled by the dedicated check below). -/
def cumulativeSignature : FormatSignature :=
  ⟨["Dátum"], ["DP_1-1:1.8.0*0", "DP_1-1:2.8.0*0"], ["MAXIMUM ÉRTÉK", "ÖSSZEG"]⟩

/-- `FormatDetector._matches_signature`: require every required column
to appear verbatim among the sample's (stripped) column names; for the
cumulative signature additionally require some column containing both
`DP_` and `:`; and when the signature has row patterns require some
pattern to occur as a substring of the space-join of the sample's
first-column values.  `isCumulativeSig` models the Python identity
comparison `signature == self.format_signatures[CUMULATIVE_180_280]`,
which holds exactly for the cumulative signature. -/
def matchesSignature (columns firstColumnValues : List String)
    (sig : FormatSignature) (isCumulativeSig : Bool) : Bool :=
  sig.requiredColumns.all (fun c => columns.contains c) &&
  (if isCumulativeSig then
      columns.any (fun c => containsSub "DP_" c && containsSub ":" c)
    else true) &&
  (if sig.rowPatterns.isEmpty then true
    else sig.rowPatterns.any
      (fun pat => containsSub pat (String.intercalate " " firstColumnValues)))

/-- `FormatDetector.detect_format`'s signature loop, in the dict's
insertion order (LEGACY, AP_AM, CUMULATIVE_180_280); `unknownTag` when
nothing matches. -/
inductive DetectedTag where
  | legacyTag
  | apAmTag
  | cumulativeTag
  | unknownTag
deriving DecidableEq, Repr

/-- The first fully-matching signature wins; `Unknown` otherwise. -/
def detectFormatFromSample (columns firstColumnValues : List String) : DetectedTag :=
  if matchesSignature columns firstColumnValues legacySignature false then .legacyTag
  else if matchesSignature columns firstColumnValues apAmSignature false then .apAmTag
  else if matchesSignature columns firstColumnValues cumulativeSignature true then .cumulativeTag
  else .unknownTag

/-- Lower-casing for the letters appearing in the marker strings (ASCII
plus the accented Hungarian capitals used by the markers); used only to
state that two strings differ in letter case alone. -/
def lowerHu (c : Char) : Char :=
  if c = 'É' then 'é'
  else if c = 'Ö' then 'ö'
  else if c = 'Á' then 'á'
  else if 'A' ≤ c ∧ c ≤ 'Z' then Char.ofNat (c.toNat + 32)
  else c

/-- String-wise case folding with `lowerHu`. -/
def lowerStr (s : String) : String := String.mk (s.data.map lowerHu)

/-- C4 counterexample: the marker-substring check is case-sensitive,
not case-insensitive.  A sample whose first column contains the AP_AM
marker in lower case (differing from the signature's
`MAXIMUM ÉRTÉK` pattern only in letter case) fails
`_matches_signature`, while the exact-case sample passes. -/
theorem c4_counterexample :
    matchesSignature ["Dátum/Idő", "+A", "-A"]
        ["2024.01.01. 00:00", "maximum érték"] apAmSignature false = false ∧
    lowerStr "maximum érték" = lowerStr "MAXIMUM ÉRTÉK" ∧
    "maximum érték" ≠ "MAXIMUM ÉRTÉK" ∧
    matchesSignature ["Dátum/Idő", "+A", "-A"]
        ["2024.01.01. 00:00", "MAXIMUM ÉRTÉK"] apAmSignature false = true := by
  refine ⟨by decide, by decide, by decide, by decide⟩

/-- C4 amended: required column-name comparisons are exact and
case-sensitive, and the marker-substring check on the sample's first
column is case-sensitive as well — the AP_AM signature matches exactly
when every required column appears verbatim and some marker pattern
occurs verbatim as a substring of the joined first column; a marker
differing only in letter case does not match. -/
theorem c4_signature_matching :
    (∀ cols vals : List String,
      matchesSignature cols vals apAmSignature false =
        (apAmSignature.requiredColumns.all (fun c => cols.contains c) &&
         apAmSignature.rowPatterns.any
           (fun pat => containsSub pat (String.intercalate " " vals)))) ∧
    matchesSignature ["Dátum/Idő", "+A", "-A"]
        ["2024.01.01. 00:00", "maximum érték"] apAmSignature false = false ∧
    lowerStr "maximum érték" = lowerStr "MAXIMUM ÉRTÉK" ∧
    matchesSignature ["Dátum/Idő", "+A", "-A"]
        ["2024.01.01. 00:00", "MAXIMUM ÉRTÉK"] apAmSignature false = true := by
  refine ⟨?_, by decide, by decide, by decide⟩
  intro cols vals
  simp [matchesSignature, apAmSignature]

/-! ## UnifiedParser (`unified_parser.py`) and the `DataFormat` enum

`parse_file`'s file reading, classification sampling and the concrete
per-parser invocations depend on the file system; they are abstracted
as parameters (`detect` is the classification outcome for the given
file, `runParser` the outcome of running a given parser class on it),
so the theorems quantify over every possible parser behavior. -/

/-- The `DataFormat` enum of `format_detector.py`. -/
inductive DataFormat where
  | legacy
  | apAm
  | cumulative180280
  | unknown
deriving DecidableEq, Repr

/-- `DataFormat.value`, the enum's string value. -/
def DataFormat.value : DataFormat → String
  | .legacy => "legacy"
  | .apAm => "ap_am"
  | .cumulative180280 => "180_280"
  | .unknown => "unknown"

/-- The `DataFormat(format_override)` enum constructor: succeeds on the
four enum string values (including "unknown"), raises `ValueError`
(modelled as `none`) otherwise. -/
def DataFormat.ofValue : String → Option DataFormat
  | "legacy" => some .legacy
  | "ap_am" => some .apAm
  | "180_280" => some .cumulative180280
  | "unknown" => some .unknown
  | _ => none

/-- The parser classes that `UnifiedParser.__init__` can register. -/
inductive ParserClass where
  | csvParserClass
  | apamParserClass
  | cumulativeParserClass
deriving DecidableEq, Repr

/-- `UnifiedParser.__init__`'s `parser_classes` lookup table: note that
`DataFormat.UNKNOWN` has no entry. -/
def parserClasses : DataFormat → Option ParserClass
  | .legacy => some .csvParserClass
  | .apAm => some .apamParserClass
  | .cumulative180280 => some .cumulativeParserClass
  | .unknown => none

/-- `FormatDetector.get_recommended_parser` (a name-only advisory map,
not consulted by the orchestrator). -/
def getRecommendedParser : DataFormat → String
  | .legacy => "LegacyCSVParser"
  | .apAm => "APAMParser"
  | .cumulative180280 => "CumulativeParser"
  | .unknown => "LegacyCSVParser"

/-- The two error classes of `exceptions.py` that the orchestrator
claims are about. -/
inductive EonError where
  | fileProcessing (msg : String)
  | configurationErr (msg : String)
deriving DecidableEq, Repr

/-- `str(e)` of the exception. -/
def EonError.msg : EonError → String
  | .fileProcessing m => m
  | .configurationErr m => m

/-- One record of a parsed file's `hourly_data`/`daily_data` lists:
its `datetime` sort key (abstracted to a number) and its value. -/
structure CombinedRecord where
  datetime : Nat
  valueKwh : ℚ
deriving DecidableEq, Repr

/-- The fields of a `parse_file` result dictionary that the claims are
about. -/
structure FileResult where
  format : String
  hourlyData : List CombinedRecord
  dailyData : List CombinedRecord
  cumulativeData : Option (List CombinedRecord)
  totalRecords : Nat
  dateRange : Option (Nat × Nat)
  detectionMetadata : List (String × String)
deriving DecidableEq, Repr

/-- `UnifiedParser.parse_file` (lines 30-85).  `detect` is what
`detect_file_format` would return for this file; `runParser` is the
outcome of the dispatched parser (including the legacy
standardization); a Python falsy override (`None` or the empty string)
means classification runs.  Any error raised inside the body is caught
by the final handler and re-raised as a `FileProcessingError` wrapping
the message. -/
def parseFile (detect : DataFormat × List (String × String))
    (runParser : ParserClass → Except String FileResult)
    (filePath : String) (formatOverride : Option String) :
    Except EonError FileResult :=
  let inner : Except String FileResult :=
    match
      (match formatOverride with
        | some o =>
          if o = "" then Except.ok detect
          else
            match DataFormat.ofValue o with
            | some f => Except.ok (f, [("format", o)])
            | none => Except.error ("Invalid format override: " ++ o)
        | none => Except.ok detect :
        Except String (DataFormat × List (String × String)))
    with
    | .error e => .error e
    | .ok (fmt, md) =>
      match parserClasses fmt with
      | none => .error ("No parser available for format: " ++ fmt.value)
      | some pc =>
        match runParser pc with
        | .error e => .error e
        | .ok r =>
          let r1 :=
            if fmt = DataFormat.cumulative180280 then
              match r.cumulativeData with
              | some c => { r with dailyData := c }
              | none => r
            else r
          .ok { r1 with detectionMetadata := md }
  match inner with
  | .ok r => .ok r
  | .error e =>
    .error (.fileProcessing ("Failed to parse file " ++ filePath ++ ": " ++ e))

/-- The accumulating `combined_data` dictionary of
`parse_multiple_files`.  Python's `formats` set is modelled as an
insertion-ordered duplicate-free list (the claims do not depend on set
iteration order). -/
structure Combined where
  files : List String
  formats : List String
  dateRanges : List (Nat × Nat)
  totalRecords : Nat
  hourlyData : List CombinedRecord
  dailyData : List CombinedRecord
  processingErrors : List String
  overallDateRange : Option (Nat × Nat)
deriving DecidableEq, Repr

/-- Set-style insertion for the `formats` set. -/
def insertFormat (l : List String) (f : String) : List String :=
  if f ∈ l then l else l ++ [f]

/-- The body of `parse_multiple_files`'s per-path loop: a successful
parse extends the combined lists, a failure is caught and recorded as
one `processing_errors` entry. -/
def multiStep (parseOne : String → Except EonError FileResult)
    (c : Combined) (p : String) : Combined :=
  match parseOne p with
  | .ok r =>
    { c with
      files := c.files ++ [p],
      formats := insertFormat c.formats r.format,
      totalRecords := c.totalRecords + r.totalRecords,
      dateRanges := c.dateRanges ++
        (match r.dateRange with | some dr => [dr] | none => []),
      hourlyData := c.hourlyData ++ r.hourlyData,
      dailyData := c.dailyData ++ r.dailyData }
  | .error e =>
    { c with processingErrors :=
        c.processingErrors ++ ["Error parsing " ++ p ++ ": " ++ e.msg] }

/-- Minimum of a list of keys (`min(all_starts)`); only applied to
nonempty lists. -/
def listMinimum : List Nat → Nat
  | [] => 0
  | a :: rest => rest.foldl Nat.min a

/-- Maximum of a list of keys (`max(all_ends)`). -/
def listMaximum : List Nat → Nat
  | [] => 0
  | a :: rest => rest.foldl Nat.max a

/-- `UnifiedParser.parse_multiple_files` (lines 87-175): attempt each
path independently (failures are recorded, never propagated), then sort
the combined hourly and daily lists by their datetime key and compute
the overall date range when any per-file range was collected.  The
function's own try/except re-raises only exceptions of the combine
phase, which the modelled operations cannot raise, so the call always
returns a combined result. -/
def parseMultipleFiles (parseOne : String → Except EonError FileResult)
    (paths : List String) : Except EonError Combined :=
  let c1 := paths.foldl (multiStep parseOne) ⟨[], [], [], 0, [], [], [], none⟩
  let c2 := { c1 with
    hourlyData := sortByKey (fun r => r.datetime) c1.hourlyData,
    dailyData := sortByKey (fun r => r.datetime) c1.dailyData }
  let c3 :=
    match c2.dateRanges with
    | [] => c2
    | _ =>
      { c2 with
        overallDateRange := some
          (listMinimum (c2.dateRanges.map Prod.fst),
           listMaximum (c2.dateRanges.map Prod.snd)) }
  Except.ok c3

/-- A non-empty override that the `DataFormat` constructor rejects
makes `parse_file` fail with a `FileProcessingError` (the inner
`FileProcessingError` is re-wrapped by the catch-all handler). -/
lemma parseFile_invalid_override (detect : DataFormat × List (String × String))
    (rp : ParserClass → Except String FileResult) (path o : String)
    (ho : o ≠ "") (hov : DataFormat.ofValue o = none) :
    parseFile detect rp path (some o) =
      .error (.fileProcessing
        ("Failed to parse file " ++ path ++ ": " ++
         ("Invalid format override: " ++ o))) := by
  simp [parseFile, ho, hov]

/-- Any non-empty override makes the result independent of the
classification outcome: classification is skipped. -/
lemma parseFile_override_skips_detection
    (d1 d2 : DataFormat × List (String × String))
    (rp : ParserClass → Except String FileResult) (path o : String) (ho : o ≠ "") :
    parseFile d1 rp path (some o) = parseFile d2 rp path (some o) := by
  cases hov : DataFormat.ofValue o <;> simp [parseFile, ho, hov]

/-- When every path fails, the per-path loop leaves every combined
field unchanged and appends one error entry per path. -/
lemma multiFold_allFail (f : String → Except EonError FileResult) :
    ∀ (paths : List String) (c : Combined),
      (∀ p ∈ paths, ∃ e, f p = .error e) →
      ∃ errs : List String,
        paths.foldl (multiStep f) c =
          { c with processingErrors := c.processingErrors ++ errs } ∧
        errs.length = paths.length := by
  intro paths
  induction paths with
  | nil => intro c _; exact ⟨[], by simp, rfl⟩
  | cons p ps ih =>
    intro c h
    obtain ⟨e, he⟩ := h p (List.mem_cons_self p ps)
    have hstep : multiStep f c p =
        { c with processingErrors :=
            c.processingErrors ++ ["Error parsing " ++ p ++ ": " ++ e.msg] } := by
      simp [multiStep, he]
    obtain ⟨errs, heq, hlen⟩ :=
      ih { c with processingErrors :=
            c.processingErrors ++ ["Error parsing " ++ p ++ ": " ++ e.msg] }
        (fun q hq => h q (List.mem_cons_of_mem p hq))
    refine ⟨["Error parsing " ++ p ++ ": " ++ e.msg] ++ errs, ?_, by simp [hlen]⟩
    simp only [List.foldl_cons, hstep, heq]
    simp

/-- C10: the parser lookup table of `UnifiedParser.__init__` has no
entry for the Unknown tag, so a file classified as Unknown (and no
override) makes `parse_file` raise a `FileProcessingError` saying no
parser is available — there is no orchestrator-level fallback to the
legacy parser, even though `FormatDetector.get_recommended_parser`
names the legacy parser as the Unknown fallback. -/
theorem c10_unknown_dispatch_gap :
    parserClasses DataFormat.unknown = none ∧
    (∀ (md : List (String × String))
        (rp : ParserClass → Except String FileResult) (path : String),
      parseFile (DataFormat.unknown, md) rp path none =
        .error (.fileProcessing
          ("Failed to parse file " ++ path ++ ": " ++
           "No parser available for format: unknown"))) ∧
    getRecommendedParser DataFormat.unknown = "LegacyCSVParser" :=
  ⟨rfl, fun _ _ _ => rfl, rfl⟩

/-- C5 counterexample: an unrecognized override ("bogus") makes
`parse_file` fail with a `FileProcessingError`, not a
`ConfigurationError`; and the empty-string override (also not a
recognized `FormatTag` value, but falsy in Python) does not fail at
all — classification runs and the parse succeeds. -/
theorem c5_counterexample :
    parseFile (DataFormat.legacy, [])
        (fun _ => .ok ⟨"legacy", [], [], none, 0, none, []⟩) "f.csv" (some "bogus") =
      .error (.fileProcessing
        "Failed to parse file f.csv: Invalid format override: bogus") ∧
    parseFile (DataFormat.legacy, [("format", "legacy")])
        (fun _ => .ok ⟨"legacy", [], [], none, 0, none, []⟩) "f.csv" (some "") =
      .ok ⟨"legacy", [], [], none, 0, none, [("format", "legacy")]⟩ :=
  ⟨rfl, rfl⟩

/-- C5 amended: a non-empty format override that is not a recognized
`DataFormat` value makes `parse_file` fail with a
`FileProcessingError` (not a `ConfigurationError`), and any non-empty
override skips classification: the result does not depend on the
classification outcome. -/
theorem c5_invalid_override_error :
    (∀ (detect : DataFormat × List (String × String))
        (rp : ParserClass → Except String FileResult) (path o : String),
      o ≠ "" → DataFormat.ofValue o = none →
      parseFile detect rp path (some o) =
        .error (.fileProcessing
          ("Failed to parse file " ++ path ++ ": " ++
           ("Invalid format override: " ++ o)))) ∧
    (∀ (d1 d2 : DataFormat × List (String × String))
        (rp : ParserClass → Except String FileResult) (path o : String),
      o ≠ "" → parseFile d1 rp path (some o) = parseFile d2 rp path (some o)) :=
  ⟨parseFile_invalid_override, parseFile_override_skips_detection⟩

/-- Witness for C5 amended: the override "bogus" at a concrete parser
and path. -/
theorem c5_invalid_override_error_witness :
    parseFile (DataFormat.legacy, [])
        (fun _ => .ok ⟨"legacy", [], [], none, 0, none, []⟩) "f.csv" (some "bogus") =
      .error (.fileProcessing
        ("Failed to parse file " ++ "f.csv" ++ ": " ++
         ("Invalid format override: " ++ "bogus"))) :=
  c5_invalid_override_error.1 (DataFormat.legacy, [])
    (fun _ => .ok ⟨"legacy", [], [], none, 0, none, []⟩) "f.csv" "bogus"
    (by decide) rfl

/-- C2 counterexample: when every given path fails to parse,
`parse_multiple_files` does not raise — it returns a combined result
with empty hourly and daily data and one recorded error per file. -/
theorem c2_counterexample :
    parseMultipleFiles
        (fun p => .error (.fileProcessing ("Failed to parse file " ++ p ++ ": boom")))
        ["a.csv", "b.csv"] =
      .ok ⟨[], [], [], 0, [], [],
        ["Error parsing a.csv: Failed to parse file a.csv: boom",
         "Error parsing b.csv: Failed to parse file b.csv: boom"], none⟩ :=
  rfl

/-- C2 amended: for every call where all file paths fail, the per-file
loop swallows each failure, and the call returns (rather than raises) a
combined result with empty hourly data, empty daily data, no processed
files, and exactly one processing-error entry per path. -/
theorem c2_all_fail_returns_empty :
    ∀ (parseOne : String → Except EonError FileResult) (paths : List String),
      (∀ p ∈ paths, ∃ e, parseOne p = .error e) →
      (parseMultipleFiles parseOne paths).map Combined.hourlyData = .ok [] ∧
      (parseMultipleFiles parseOne paths).map Combined.dailyData = .ok [] ∧
      (parseMultipleFiles parseOne paths).map Combined.files = .ok [] ∧
      (parseMultipleFiles parseOne paths).map
        (fun c => c.processingErrors.length) = .ok paths.length := by
  intro parseOne paths h
  obtain ⟨errs, heq, hlen⟩ :=
    multiFold_allFail parseOne paths ⟨[], [], [], 0, [], [], [], none⟩ h
  unfold parseMultipleFiles
  rw [heq]
  refine ⟨?_, ?_, ?_, ?_⟩ <;>
    simp [Except.map, sortByKey, List.insertionSort, hlen]

/-- Witness for C2 amended: two paths that both fail. -/
theorem c2_all_fail_returns_empty_witness :
    (parseMultipleFiles (fun _ => .error (.fileProcessing "boom"))
        ["a.csv", "b.csv"]).map Combined.hourlyData = .ok [] ∧
    (parseMultipleFiles (fun _ => .error (.fileProcessing "boom"))
        ["a.csv", "b.csv"]).map Combined.dailyData = .ok [] ∧
    (parseMultipleFiles (fun _ => .error (.fileProcessing "boom"))
        ["a.csv", "b.csv"]).map Combined.files = .ok [] ∧
    (parseMultipleFiles (fun _ => .error (.fileProcessing "boom"))
        ["a.csv", "b.csv"]).map
      (fun c => c.processingErrors.length) = .ok (["a.csv", "b.csv"].length) :=
  c2_all_fail_returns_empty (fun _ => .error (.fileProcessing "boom"))
    ["a.csv", "b.csv"] (fun _ _ => ⟨.fileProcessing "boom", rfl⟩)

/-- C8: with three paths where only the second fails, exactly one
error entry referencing the second path is recorded, processing
continues, and the combined hourly and daily series are the successful
files' records concatenated in input order and sorted by timestamp
key. -/
theorem c8_partial_failure :
    ∀ (parseOne : String → Except EonError FileResult) (p1 p2 p3 : String)
      (r1 r3 : FileResult) (e : EonError),
      parseOne p1 = .ok r1 → parseOne p2 = .error e → parseOne p3 = .ok r3 →
      (parseMultipleFiles parseOne [p1, p2, p3]).map Combined.processingErrors =
        .ok ["Error parsing " ++ p2 ++ ": " ++ e.msg] ∧
      (parseMultipleFiles parseOne [p1, p2, p3]).map Combined.files = .ok [p1, p3] ∧
      (parseMultipleFiles parseOne [p1, p2, p3]).map Combined.hourlyData =
        .ok (sortByKey (fun r => r.datetime) (r1.hourlyData ++ r3.hourlyData)) ∧
      (parseMultipleFiles parseOne [p1, p2, p3]).map Combined.dailyData =
        .ok (sortByKey (fun r => r.datetime) (r1.dailyData ++ r3.dailyData)) ∧
      List.Sorted (keyLE fun r => r.datetime)
        (sortByKey (fun r => r.datetime) (r1.hourlyData ++ r3.hourlyData)) ∧
      List.Sorted (keyLE fun r => r.datetime)
        (sortByKey (fun r => r.datetime) (r1.dailyData ++ r3.dailyData)) := by
  intro parseOne p1 p2 p3 r1 r3 e h1 h2 h3
  cases hd1 : r1.dateRange <;> cases hd3 : r3.dateRange <;>
    refine ⟨?_, ?_, ?_, ?_, sorted_sortByKey _ _, sorted_sortByKey _ _⟩ <;>
    simp [parseMultipleFiles, multiStep, Except.map, h1, h2, h3, hd1, hd3]

/-- Witness for C8: three concrete paths with the middle one failing,
concrete single-record results for the two successes. -/
theorem c8_partial_failure_witness :
    (parseMultipleFiles
        (fun p => if p = "a.csv"
          then .ok ⟨"ap_am", [⟨5, 2⟩], [⟨100, 8⟩], none, 2, some (5, 100), []⟩
          else if p = "b.csv" then .error (.fileProcessing "cannot open")
          else .ok ⟨"ap_am", [⟨3, 1⟩], [⟨90, 7⟩], none, 2, some (3, 90), []⟩)
        ["a.csv", "b.csv", "c.csv"]).map Combined.processingErrors =
      .ok ["Error parsing " ++ "b.csv" ++ ": " ++
        (EonError.fileProcessing "cannot open").msg] ∧
    (parseMultipleFiles
        (fun p => if p = "a.csv"
          then .ok ⟨"ap_am", [⟨5, 2⟩], [⟨100, 8⟩], none, 2, some (5, 100), []⟩
          else if p = "b.csv" then .error (.fileProcessing "cannot open")
          else .ok ⟨"ap_am", [⟨3, 1⟩], [⟨90, 7⟩], none, 2, some (3, 90), []⟩)
        ["a.csv", "b.csv", "c.csv"]).map Combined.files = .ok ["a.csv", "c.csv"] ∧
    (parseMultipleFiles
        (fun p => if p = "a.csv"
          then .ok ⟨"ap_am", [⟨5, 2⟩], [⟨100, 8⟩], none, 2, some (5, 100), []⟩
          else if p = "b.csv" then .error (.fileProcessing "cannot open")
          else .ok ⟨"ap_am", [⟨3, 1⟩], [⟨90, 7⟩], none, 2, some (3, 90), []⟩)
        ["a.csv", "b.csv", "c.csv"]).map Combined.hourlyData =
      .ok (sortByKey (fun r => r.datetime) ([⟨5, 2⟩] ++ [⟨3, 1⟩])) ∧
    (parseMultipleFiles
        (fun p => if p = "a.csv"
          then .ok ⟨"ap_am", [⟨5, 2⟩], [⟨100, 8⟩], none, 2, some (5, 100), []⟩
          else if p = "b.csv" then .error (.fileProcessing "cannot open")
          else .ok ⟨"ap_am", [⟨3, 1⟩], [⟨90, 7⟩], none, 2, some (3, 90), []⟩)
        ["a.csv", "b.csv", "c.csv"]).map Combined.dailyData =
      .ok (sortByKey (fun r => r.datetime) ([⟨100, 8⟩] ++ [⟨90, 7⟩])) := by
  have h := c8_partial_failure
    (fun p => if p = "a.csv"
      then .ok ⟨"ap_am", [⟨5, 2⟩], [⟨100, 8⟩], none, 2, some (5, 100), []⟩
      else if p = "b.csv" then .error (.fileProcessing "cannot open")
      else .ok ⟨"ap_am", [⟨3, 1⟩], [⟨90, 7⟩], none, 2, some (3, 90), []⟩)
    "a.csv" "b.csv" "c.csv"
    ⟨"ap_am", [⟨5, 2⟩], [⟨100, 8⟩], none, 2, some (5, 100), []⟩
    ⟨"ap_am", [⟨3, 1⟩], [⟨90, 7⟩], none, 2, some (3, 90), []⟩
    (.fileProcessing "cannot open") rfl rfl rfl
  exact ⟨h.1, h.2.1, h.2.2.1, h.2.2.2.1⟩
